import Mathlib

/-!
Shallow embedding of the PictoPost / Runway & Rivets eBay-lister repository:
the draft-image upload handler (`ImageUpload.handleFiles`), the user
creation flow (`UserSetup.handleCreateUser`), and the Supabase schema
(`supabase/migrations/20250705055612-....sql`: tables `users`, `listings`,
`ai_usage`, their `ON DELETE CASCADE` foreign keys and `USING (true)`
row-level-security policies).  The Flask backend (AI provider gateway and
listing-generation workflow) is not part of the source tree; those parts
are modelled from the specification and marked as such.

Machine strings are Lean `String`s; the JavaScript string primitives used
by the frontend (`String.prototype.startsWith`, `String.prototype.trim`)
are embedded as computable functions on the underlying character list so
that concrete runs reduce in the kernel.  Whitespace is modelled as
space/tab/CR/LF.
-/

namespace PictoPost

/-- JavaScript `s.startsWith(pre)`: `pre` is a prefix of `s`. -/
def strStartsWith (s pre : String) : Bool :=
  pre.data.isPrefixOf s.data

/-- JavaScript `s.trim()`: remove leading and trailing whitespace. -/
def jsTrim (s : String) : String :=
  ⟨((s.data.dropWhile Char.isWhitespace).reverse.dropWhile Char.isWhitespace).reverse⟩

/-! ### Draft-image upload (`src/unnamed/part_006`, `handleFiles`) -/

/-- A browser `File` as consumed by `handleFiles`: name, MIME content type
(`file.type`), and size in bytes (`file.size`). -/
structure File where
  name : String
  type : String
  size : Nat
deriving Repr, DecidableEq

/-- The capacity-error toast emitted when the batch would exceed the
10-draft cap, built exactly as in the source template string. -/
def capacityMessage (current requested : Nat) : String :=
  "You can only have 10 draft images total. You have " ++ toString current ++
    " drafts and are trying to add " ++ toString requested ++ " more."

/-- Per-file rejection toast: the content-type check fires first, then the
size check, exactly as in the source. -/
def fileErrorMessage (f : File) : String :=
  if !(strStartsWith f.type "image/") then f.name ++ " is not an image file"
  else f.name ++ " is too large (max 10MB)"

/-- The per-file loop body of `handleFiles`: a file is skipped (`continue`)
with a toast when its MIME type does not start with `image/` or when its
size exceeds `10 * 1024 * 1024` bytes; otherwise it is uploaded and its
name recorded.  Returns the stored filenames and the rejection toasts, in
batch order. -/
def processFiles : List File → List String × List String
  | [] => ([], [])
  | f :: fs =>
    if !(strStartsWith f.type "image/") then
      let r := processFiles fs
      (r.1, (f.name ++ " is not an image file") :: r.2)
    else if f.size > 10 * 1024 * 1024 then
      let r := processFiles fs
      (r.1, (f.name ++ " is too large (max 10MB)") :: r.2)
    else
      let r := processFiles fs
      (f.name :: r.1, r.2)

/-- Outcome of one `handleFiles` call: either the early capacity-error
return (carrying the current draft count, the requested count, and the
toast message), or the per-file results. -/
inductive UploadResult where
  | capacityError (current requested : Nat) (message : String)
  | completed (stored : List String) (rejections : List String)
deriving Repr, DecidableEq

/-- `handleFiles` from `src/unnamed/part_006`: if the user's current
drafts plus the selected files exceed 10, the whole call returns the
capacity error before touching any file; otherwise each file is validated
and uploaded individually. -/
def handleFiles (drafts : List String) (files : List File) : UploadResult :=
  if drafts.length + files.length > 10 then
    .capacityError drafts.length files.length
      (capacityMessage drafts.length files.length)
  else
    let r := processFiles files
    .completed r.1 r.2

/-- The user's draft list after a `handleFiles` call: unchanged on the
capacity error, extended by the stored files otherwise. -/
def draftsAfter (drafts : List String) (files : List File) : List String :=
  match handleFiles drafts files with
  | .capacityError _ _ _ => drafts
  | .completed stored _ => drafts ++ stored

/-- Characterisation of the per-file acceptance test of `handleFiles`: the
MIME type starts with `image/` and the size is at most `10 * 1024 * 1024`
bytes (the source rejects only on `file.size > 10 * 1024 * 1024`). -/
def fileAccepted (f : File) : Bool :=
  strStartsWith f.type "image/" && decide (f.size ≤ 10 * 1024 * 1024)

/-! ### User creation (`src/src/components/UserSetup.tsx`, `handleCreateUser`) -/

/-- A row of the `users` table (timestamps, which are database-assigned,
are omitted).  `preferences` and `usage_stats` are JSONB maps, modelled as
association lists. -/
structure UserRow where
  id : String
  email : Option String := none
  name : Option String := none
  ai_provider : Option String := none
  ai_api_key_encrypted : Option String := none
  ebay_app_id : Option String := none
  ebay_cert_id : Option String := none
  ebay_dev_id : Option String := none
  ebay_refresh_token : Option String := none
  preferences : List (String × String) := []
  usage_stats : List (String × String) := []
deriving Repr, DecidableEq

/-- A database access issued by `handleCreateUser` against the `users`
table: the existence lookup (`select ... eq('id', ...)`) or the insert. -/
inductive DbOp where
  | lookupUser (id : String)
  | insertUser (id : String)
deriving Repr, DecidableEq

/-- Result reported by `handleCreateUser` to the caller. -/
inductive CreateResult where
  | invalidInput (message : String)
  | fetchedExisting (row : UserRow)
  | created (row : UserRow)
deriving Repr, DecidableEq

/-- The `users` existence lookup: first row whose `id` equals the key. -/
def findUser (db : List UserRow) (id : String) : Option UserRow :=
  db.find? (fun r => r.id == id)

/-- The row inserted for a fresh identifier: `id` and `name` are the
trimmed identifier, `preferences` and `usage_stats` are empty maps, all
other columns take their defaults. -/
def newUserRow (id : String) : UserRow :=
  { id := id, name := some id, preferences := [], usage_stats := [] }

/-- `handleCreateUser` from `UserSetup.tsx`: reject a blank (trimmed
empty) identifier before any database access; otherwise look up the
trimmed identifier and either return the existing row or insert
`newUserRow`.  Besides the result and the new table state, the list of
database accesses performed is returned, in order. -/
def handleCreateUser (userId : String) (db : List UserRow) :
    CreateResult × List UserRow × List DbOp :=
  if jsTrim userId = "" then
    (.invalidInput "Please enter a user ID", db, [])
  else
    match findUser db (jsTrim userId) with
    | some row => (.fetchedExisting row, db, [.lookupUser (jsTrim userId)])
    | none =>
      (.created (newUserRow (jsTrim userId)),
        db ++ [newUserRow (jsTrim userId)],
        [.lookupUser (jsTrim userId), .insertUser (jsTrim userId)])

/-! ### The Supabase schema (migration `20250705055612-...sql`) -/

/-- A row of the `listings` table.  `title` is `TEXT NOT NULL`, hence a
plain `String`; every nullable column is an `Option`; `user_id` is the
`REFERENCES users(id) ON DELETE CASCADE` foreign key, declared without
`NOT NULL`.  `image_urls` is JSONB defaulting to `[]`. -/
structure ListingRow where
  id : String
  user_id : Option String := none
  title : String
  description : Option String := none
  category : Option String := none
  condition : Option String := none
  estimated_price : Option String := none
  brand : Option String := none
  item_type : Option String := none
  material : Option String := none
  color : Option String := none
  country_of_manufacture : Option String := none
  image_urls : List String := []
  user_message : Option String := none
  ai_provider : Option String := none
  ai_generated : Bool := true
  status : String := "draft"
  ebay_listing_id : Option String := none
deriving Repr, DecidableEq

/-- A row of the `ai_usage` table.  `provider` is `TEXT NOT NULL`;
`user_id` is the cascade foreign key without `NOT NULL`; `tokens_used`
defaults to 0 and `cost` (DECIMAL(10,4), modelled in ten-thousandths) to
0. -/
structure AiUsageRow where
  id : String
  user_id : Option String := none
  provider : String
  model : Option String := none
  tokens_used : Nat := 0
  cost : Nat := 0
  request_type : Option String := none
  success : Bool := true
  error_message : Option String := none
deriving Repr, DecidableEq

/-- The three tables of the schema. -/
structure Db where
  users : List UserRow
  listings : List ListingRow
  ai_usage : List AiUsageRow
deriving Repr, DecidableEq

/-- The foreign-key acceptance check for a `listings` row: a NULL
`user_id` is accepted (the column has no `NOT NULL` constraint); a
non-NULL `user_id` must reference an existing user. -/
def listingRowOk (users : List UserRow) (r : ListingRow) : Bool :=
  match r.user_id with
  | none => true
  | some u => users.any (fun w => w.id == u)

/-- The foreign-key acceptance check for an `ai_usage` row; as for
listings, NULL `user_id` is accepted. -/
def aiUsageRowOk (users : List UserRow) (r : AiUsageRow) : Bool :=
  match r.user_id with
  | none => true
  | some u => users.any (fun w => w.id == u)

/-- Deleting a user: the row itself is removed, and `ON DELETE CASCADE`
on `listings.user_id` and `ai_usage.user_id` removes every row whose
`user_id` equals the deleted id. -/
def deleteUser (u : String) (db : Db) : Db :=
  { users := db.users.filter (fun r => !(r.id == u)),
    listings := db.listings.filter (fun r => !(r.user_id == some u)),
    ai_usage := db.ai_usage.filter (fun r => !(r.user_id == some u)) }

/-- The user-scoped listing query (`listings` filtered on `user_id`). -/
def listListings (u : String) (db : Db) : List ListingRow :=
  db.listings.filter (fun r => r.user_id == some u)

/-- The user-scoped usage query (`ai_usage` filtered on `user_id`). -/
def listAiUsage (u : String) (db : Db) : List AiUsageRow :=
  db.ai_usage.filter (fun r => r.user_id == some u)

/-! ### Row-level security (same migration, lines 78-94) -/

/-- The `users` RLS policy: `FOR ALL USING (true)`. -/
def usersPolicy (_requester : String) (_row : UserRow) : Bool := true

/-- The `listings` RLS policy: `FOR ALL USING (true)`. -/
def listingsPolicy (_requester : String) (_row : ListingRow) : Bool := true

/-- The `ai_usage` RLS policy: `FOR ALL USING (true)`. -/
def aiUsagePolicy (_requester : String) (_row : AiUsageRow) : Bool := true

/-- RLS row filtering: the rows of a table visible to a requester are
those its policy accepts. -/
def rlsVisible {α : Type} (policy : String → α → Bool) (requester : String)
    (rows : List α) : List α :=
  rows.filter (policy requester)

/-- RLS write permission: a requester may modify a row iff the table
policy accepts the pair. -/
def rlsPermits {α : Type} (policy : String → α → Bool) (requester : String)
    (row : α) : Prop :=
  policy requester row = true

/-! ### Spec-modelled backend parts

The Flask backend (`app.py`, `ai_providers.py`, ...) referenced by the
repository's documentation is not present in the source tree; the AI
provider gateway and the listing-generation insert step below are
modelled from the specification (sections 4.2 and 4.3). -/

/-- Modelled from the spec: the structured field set produced by the AI
provider gateway when it "parses the response into the listing field
schema (title, description, category, condition, estimated price range,
brand, item type, material, color, country of manufacture,
photo-improvement notes)" (spec section 4.2); the gateway code itself is
not in the source tree. -/
structure GatewayFields where
  title : String
  description : String
  category : String
  condition : String
  estimated_price : String
  brand : String
  item_type : String
  material : String
  color : String
  country_of_manufacture : String
  photo_notes : String
deriving Repr, DecidableEq

/-- The gateway output contract asserted by the spec (section 8): title,
description and category are populated (non-empty). -/
def GatewayFields.populated (g : GatewayFields) : Prop :=
  g.title ≠ "" ∧ g.description ≠ "" ∧ g.category ≠ ""

instance (g : GatewayFields) : Decidable g.populated := by
  unfold GatewayFields.populated
  infer_instance

/-- Modelled from the spec: step (4) of the listing-generation workflow
(spec section 4.3) — "insert the resulting fields as a new Listing row
with `ai_generated = true` and `status = draft`"; the backend handler is
not in the source tree.  `newId` stands for the server-assigned UUID. -/
def generatedRow (newId u : String) (images : List String)
    (message : Option String) (provider : String) (g : GatewayFields) :
    ListingRow :=
  { id := newId, user_id := some u, title := g.title,
    description := some g.description, category := some g.category,
    condition := some g.condition, estimated_price := some g.estimated_price,
    brand := some g.brand, item_type := some g.item_type,
    material := some g.material, color := some g.color,
    country_of_manufacture := some g.country_of_manufacture,
    image_urls := images, user_message := message,
    ai_provider := some provider, ai_generated := true, status := "draft",
    ebay_listing_id := none }

/-- Modelled from the spec: the database effect of step (4), appending the
generated row to the `listings` table. -/
def insertGeneratedListing (newId u : String) (images : List String)
    (message : Option String) (provider : String) (g : GatewayFields)
    (db : Db) : Db :=
  { db with listings := db.listings ++ [generatedRow newId u images message provider g] }

/-- Modelled from the spec: what one gateway request came to — the
provider call succeeded (token count and cost each reported or not, plus
parsed fields), or the provider call failed. -/
inductive ProviderReply where
  | ok (tokens : Option Nat) (cost : Option Nat) (fields : GatewayFields)
  | failed (message : String)
deriving Repr, DecidableEq

/-- Modelled from the spec: classification of one call into the AI
provider gateway — either request validation failed before any network
call, or a provider call took place and produced a reply. -/
inductive GatewayRequestOutcome where
  | invalidRequest (message : String)
  | providerReply (reply : ProviderReply)
deriving Repr, DecidableEq

/-- Modelled from the spec (section 4.2): the single `ai_usage` row
written for one gateway call — "every call, success or failure, writes
exactly one AIUsageRecord with token/cost figures (cost zero and tokens
zero when the provider does not report them, or when validation fails
before any network call)".  `newId` stands for the server-assigned
UUID. -/
def usageRecordFor (newId u provider usedModel : String)
    (o : GatewayRequestOutcome) : AiUsageRow :=
  match o with
  | .invalidRequest msg =>
    { id := newId, user_id := some u, provider := provider,
      model := some usedModel, tokens_used := 0, cost := 0,
      request_type := some "listing_generation", success := false,
      error_message := some msg }
  | .providerReply (.failed msg) =>
    { id := newId, user_id := some u, provider := provider,
      model := some usedModel, tokens_used := 0, cost := 0,
      request_type := some "listing_generation", success := false,
      error_message := some msg }
  | .providerReply (.ok tokens cost _) =>
    { id := newId, user_id := some u, provider := provider,
      model := some usedModel, tokens_used := tokens.getD 0,
      cost := cost.getD 0, request_type := some "listing_generation",
      success := true, error_message := none }

/-- Modelled from the spec: the usage-logging effect of one gateway call,
appending exactly one `ai_usage` row whatever the outcome. -/
def aiGatewayCall (newId u provider usedModel : String)
    (o : GatewayRequestOutcome) (db : Db) : Db :=
  { db with ai_usage := db.ai_usage ++ [usageRecordFor newId u provider usedModel o] }

/-! ### Concrete instances used by witnesses -/

/-- An orphan listing row: NULL `user_id`. -/
def c10Listing : ListingRow := { id := "L1", title := "Orphan" }

/-- An orphan usage row: NULL `user_id`. -/
def c10Usage : AiUsageRow := { id := "A1", provider := "openai" }

/-- A database holding only the two orphan rows. -/
def c10Db : Db := { users := [], listings := [c10Listing], ai_usage := [c10Usage] }

/-- A listing owned by user `"bob"`. -/
def c6Listing : ListingRow := { id := "L2", user_id := some "bob", title := "Bobs jacket" }

/-- A concrete gateway field set, as for the spec example listing. -/
def c5Fields : GatewayFields :=
  { title := "Vintage Leather Jacket", description := "A vintage leather jacket in good shape.",
    category := "Clothing", condition := "Used", estimated_price := "40-60 USD",
    brand := "Unknown", item_type := "Jacket", material := "Leather",
    color := "Brown", country_of_manufacture := "USA",
    photo_notes := "add a close-up of the lining" }

/-- A database holding one user and nothing else. -/
def c5Db : Db := { users := [newUserRow "u1"], listings := [], ai_usage := [] }

/-! ### Helper lemmas -/

/-- The per-file loop stores exactly the accepted files (in order) and
emits exactly one rejection message per refused file (in order). -/
theorem processFiles_eq (files : List File) :
    processFiles files =
      ((files.filter fileAccepted).map File.name,
        (files.filter (fun f => !fileAccepted f)).map fileErrorMessage) := by
  induction files with
  | nil => rfl
  | cons f fs ih =>
    by_cases h1 : strStartsWith f.type "image/"
    · by_cases h2 : f.size ≤ 10 * 1024 * 1024
      · have hacc : fileAccepted f = true := by simp [fileAccepted, h1, h2]
        have hsz : ¬ f.size > 10 * 1024 * 1024 := by omega
        simp [processFiles, h1, hsz, hacc, ih]
      · have hacc : fileAccepted f = false := by simp [fileAccepted, h2]
        have hsz : f.size > 10 * 1024 * 1024 := by omega
        simp [processFiles, h1, hsz, hacc, ih, fileErrorMessage]
    · have hacc : fileAccepted f = false := by simp [fileAccepted, h1]
      simp [processFiles, h1, hacc, ih, fileErrorMessage]

/-- On an over-capacity batch `handleFiles` returns the capacity error
carrying the current and requested counts. -/
theorem handleFiles_over_capacity (drafts : List String) (files : List File)
    (h : drafts.length + files.length > 10) :
    handleFiles drafts files =
      .capacityError drafts.length files.length
        (capacityMessage drafts.length files.length) := by
  simp [handleFiles, h]

/-- Within capacity, `handleFiles` stores the accepted files and rejects
the rest individually. -/
theorem handleFiles_within_capacity (drafts : List String) (files : List File)
    (h : drafts.length + files.length ≤ 10) :
    handleFiles drafts files =
      .completed ((files.filter fileAccepted).map File.name)
        ((files.filter (fun f => !fileAccepted f)).map fileErrorMessage) := by
  have h2 : ¬ drafts.length + files.length > 10 := by omega
  simp [handleFiles, h2, processFiles_eq]

/-! ### Claims -/

/-- Claim C1: for every user and every multi-file draft upload, when the
current draft count plus the number of files in the batch exceeds the cap
of 10, the whole upload fails with a capacity error whose message names
the current draft count and the requested count, and the existing drafts
are untouched (no file from the batch is stored). -/
theorem C1_capacity_error_blocks_upload (drafts : List String)
    (files : List File) (h : drafts.length + files.length > 10) :
    handleFiles drafts files =
      .capacityError drafts.length files.length
        (capacityMessage drafts.length files.length) ∧
    draftsAfter drafts files = drafts := by
  refine ⟨handleFiles_over_capacity drafts files h, ?_⟩
  unfold draftsAfter
  rw [handleFiles_over_capacity drafts files h]

/-- Witness for claim C1: a user holding 10 drafts uploading one more
file hits the capacity error and keeps the 10 drafts. -/
theorem C1_capacity_error_blocks_upload_witness :
    (["d1", "d2", "d3", "d4", "d5", "d6", "d7", "d8", "d9", "d10"] : List String).length +
        ([{ name := "a.png", type := "image/png", size := 5 }] : List File).length > 10 ∧
    (handleFiles ["d1", "d2", "d3", "d4", "d5", "d6", "d7", "d8", "d9", "d10"]
        [{ name := "a.png", type := "image/png", size := 5 }] =
      .capacityError
        (["d1", "d2", "d3", "d4", "d5", "d6", "d7", "d8", "d9", "d10"] : List String).length
        ([{ name := "a.png", type := "image/png", size := 5 }] : List File).length
        (capacityMessage
          (["d1", "d2", "d3", "d4", "d5", "d6", "d7", "d8", "d9", "d10"] : List String).length
          ([{ name := "a.png", type := "image/png", size := 5 }] : List File).length) ∧
      draftsAfter ["d1", "d2", "d3", "d4", "d5", "d6", "d7", "d8", "d9", "d10"]
        [{ name := "a.png", type := "image/png", size := 5 }] =
        ["d1", "d2", "d3", "d4", "d5", "d6", "d7", "d8", "d9", "d10"]) :=
  ⟨by decide,
    C1_capacity_error_blocks_upload
      ["d1", "d2", "d3", "d4", "d5", "d6", "d7", "d8", "d9", "d10"]
      [{ name := "a.png", type := "image/png", size := 5 }] (by decide)⟩

/-- Claim C2 counterexample: the claim requires a file to be rejected
unless its size is strictly under 10 MiB, but `handleFiles` stores a file
of exactly `10 * 1024 * 1024` bytes (the source rejects only on
`file.size > 10 * 1024 * 1024`). -/
theorem C2_boundary_counterexample :
    handleFiles []
        [{ name := "boundary.png", type := "image/png", size := 10 * 1024 * 1024 }] =
      .completed ["boundary.png"] [] ∧
    ¬ ({ name := "boundary.png", type := "image/png", size := 10 * 1024 * 1024 } : File).size
        < 10 * 1024 * 1024 := by
  decide

/-- Claim C2 (amended): within capacity, each file whose content type is
not an image or whose size exceeds 10 MiB is rejected individually with a
per-file error message, and every other file of the batch is still stored
(the batch as a whole does not fail); a file of size exactly 10 MiB is
accepted. -/
theorem C2_per_file_validation (drafts : List String) (files : List File)
    (h : drafts.length + files.length ≤ 10) :
    handleFiles drafts files =
      .completed ((files.filter fileAccepted).map File.name)
        ((files.filter (fun f => !fileAccepted f)).map fileErrorMessage) :=
  handleFiles_within_capacity drafts files h

/-- Witness for claim C2: a mixed batch (a valid image, a text file, an
oversized image) stores only the valid image and rejects the two others
with their per-file messages. -/
theorem C2_per_file_validation_witness :
    ([] : List String).length +
        ([{ name := "ok.png", type := "image/png", size := 100 },
          { name := "bad.txt", type := "text/plain", size := 100 },
          { name := "huge.png", type := "image/png", size := 10 * 1024 * 1024 + 1 }] :
          List File).length ≤ 10 ∧
    handleFiles []
        [{ name := "ok.png", type := "image/png", size := 100 },
          { name := "bad.txt", type := "text/plain", size := 100 },
          { name := "huge.png", type := "image/png", size := 10 * 1024 * 1024 + 1 }] =
      .completed
        ((([{ name := "ok.png", type := "image/png", size := 100 },
            { name := "bad.txt", type := "text/plain", size := 100 },
            { name := "huge.png", type := "image/png", size := 10 * 1024 * 1024 + 1 }] :
            List File).filter fileAccepted).map File.name)
        ((([{ name := "ok.png", type := "image/png", size := 100 },
            { name := "bad.txt", type := "text/plain", size := 100 },
            { name := "huge.png", type := "image/png", size := 10 * 1024 * 1024 + 1 }] :
            List File).filter (fun f => !fileAccepted f)).map fileErrorMessage) ∧
    handleFiles []
        [{ name := "ok.png", type := "image/png", size := 100 },
          { name := "bad.txt", type := "text/plain", size := 100 },
          { name := "huge.png", type := "image/png", size := 10 * 1024 * 1024 + 1 }] =
      .completed ["ok.png"]
        ["bad.txt is not an image file", "huge.png is too large (max 10MB)"] :=
  ⟨by decide,
    C2_per_file_validation []
      [{ name := "ok.png", type := "image/png", size := 100 },
        { name := "bad.txt", type := "text/plain", size := 100 },
        { name := "huge.png", type := "image/png", size := 10 * 1024 * 1024 + 1 }]
      (by decide),
    by decide⟩

/-- Claim C8: the 10-draft capacity check runs over the whole selected
batch before any per-file validation, so files that would later be
rejected still count toward the requested count: a user with 9 drafts
selecting one valid image and one text file gets the capacity error even
though only 1 file would actually be stored, which fits the remaining
slot. -/
theorem C8_capacity_counts_invalid_files :
    handleFiles ["d1", "d2", "d3", "d4", "d5", "d6", "d7", "d8", "d9"]
        [{ name := "ok.png", type := "image/png", size := 100 },
          { name := "bad.txt", type := "text/plain", size := 100 }] =
      .capacityError 9 2 (capacityMessage 9 2) ∧
    ((([{ name := "ok.png", type := "image/png", size := 100 },
        { name := "bad.txt", type := "text/plain", size := 100 }] :
        List File).filter fileAccepted).map File.name).length = 1 ∧
    (["d1", "d2", "d3", "d4", "d5", "d6", "d7", "d8", "d9"] : List String).length +
      ((([{ name := "ok.png", type := "image/png", size := 100 },
          { name := "bad.txt", type := "text/plain", size := 100 }] :
          List File).filter fileAccepted).map File.name).length ≤ 10 := by
  decide

/-- Claim C3 counterexample: the claim quantifies over every identifier,
but for the identifier `""` no user row exists and yet the call inserts
nothing: it is rejected as invalid input before any database access. -/
theorem C3_blank_identifier_counterexample :
    findUser ([] : List UserRow) "" = none ∧
    handleCreateUser "" [] =
      (.invalidInput "Please enter a user ID", ([] : List UserRow),
        ([] : List DbOp)) := by
  decide

/-- Claim C3 (amended): for every identifier whose trimmed form is
non-empty, create-or-fetch-user is idempotent: if a user row with the
trimmed identifier already exists the call returns that existing row and
leaves the table unchanged (lookup only, no insert); otherwise it inserts
exactly one new row whose preferences and usage-stats maps are both
empty.  (Identifiers whose trimmed form is empty are rejected without any
insert.) -/
theorem C3_create_or_fetch_idempotent (userId : String) (db : List UserRow)
    (h : jsTrim userId ≠ "") :
    (∀ row, findUser db (jsTrim userId) = some row →
        handleCreateUser userId db =
          (.fetchedExisting row, db, [.lookupUser (jsTrim userId)])) ∧
    (findUser db (jsTrim userId) = none →
        handleCreateUser userId db =
          (.created (newUserRow (jsTrim userId)),
            db ++ [newUserRow (jsTrim userId)],
            [.lookupUser (jsTrim userId), .insertUser (jsTrim userId)]) ∧
        (newUserRow (jsTrim userId)).preferences = [] ∧
        (newUserRow (jsTrim userId)).usage_stats = []) := by
  constructor
  · intro row hrow
    simp [handleCreateUser, h, hrow]
  · intro hnone
    simp [handleCreateUser, h, hnone, newUserRow]

/-- Witness for claim C3: calling with `"u1"` when the row for `"u1"`
already exists returns that row and leaves the table as it was. -/
theorem C3_create_or_fetch_idempotent_witness :
    jsTrim "u1" ≠ "" ∧
    findUser [newUserRow "u1"] (jsTrim "u1") = some (newUserRow "u1") ∧
    handleCreateUser "u1" [newUserRow "u1"] =
      (.fetchedExisting (newUserRow "u1"), [newUserRow "u1"],
        [.lookupUser (jsTrim "u1")]) :=
  ⟨by decide, by decide,
    (C3_create_or_fetch_idempotent "u1" [newUserRow "u1"] (by decide)).1
      (newUserRow "u1") (by decide)⟩

/-- Claim C9: an identifier whose trimmed form is empty is rejected
before any database access (no lookup, no insert, table unchanged); for
any identifier, every database access issued uses the trimmed form for
its key, so two identifiers with equal trimmed forms drive the call to
the very same result, table state, and accesses. -/
theorem C9_trim_gate (userId : String) (db : List UserRow) :
    (jsTrim userId = "" →
        handleCreateUser userId db =
          (.invalidInput "Please enter a user ID", db, [])) ∧
    (∀ op ∈ (handleCreateUser userId db).2.2,
        op = DbOp.lookupUser (jsTrim userId) ∨
        op = DbOp.insertUser (jsTrim userId)) ∧
    (∀ userId2, jsTrim userId = jsTrim userId2 →
        handleCreateUser userId db = handleCreateUser userId2 db) := by
  refine ⟨?_, ?_, ?_⟩
  · intro h
    simp [handleCreateUser, h]
  · intro op hop
    by_cases h : jsTrim userId = ""
    · simp [handleCreateUser, h] at hop
    · cases hfind : findUser db (jsTrim userId) with
      | some row => simp [handleCreateUser, h, hfind] at hop; simp [hop]
      | none =>
        simp [handleCreateUser, h, hfind] at hop
        rcases hop with hop | hop <;> simp [hop]
  · intro userId2 h
    unfold handleCreateUser
    rw [h]

/-- Witness for claim C9: `"  u1  "` and `"u1"` have the same trimmed
form and drive `handleCreateUser` to the same outcome; a pure-whitespace
identifier is rejected with no database access. -/
theorem C9_trim_gate_witness :
    jsTrim "  u1  " = jsTrim "u1" ∧
    handleCreateUser "  u1  " [] = handleCreateUser "u1" [] ∧
    jsTrim "   " = "" ∧
    handleCreateUser "   " [] =
      (.invalidInput "Please enter a user ID", ([] : List UserRow),
        ([] : List DbOp)) :=
  ⟨by decide, (C9_trim_gate "  u1  " []).2.2 "u1" (by decide), by decide,
    (C9_trim_gate "   " []).1 (by decide)⟩

/-- Claim C4: deleting a user cascades: after `deleteUser u`, the
user-scoped list operations return no listing and no usage record for
`u`. -/
theorem C4_delete_user_cascades (u : String) (db : Db) :
    listListings u (deleteUser u db) = [] ∧
    listAiUsage u (deleteUser u db) = [] := by
  constructor
  · simp [listListings, deleteUser, List.filter_filter]
  · simp [listAiUsage, deleteUser, List.filter_filter]

/-- Claim C10: `listings.user_id` and `ai_usage.user_id` carry no
`NOT NULL` constraint, so rows with a NULL `user_id` pass the schema
checks; such rows are never returned by any user-scoped list operation
and survive every user-deletion cascade. -/
theorem C10_null_user_id_rows (users : List UserRow) (u : String) (db : Db)
    (r : ListingRow) (s : AiUsageRow)
    (hr : r.user_id = none) (hs : s.user_id = none) :
    listingRowOk users r = true ∧
    aiUsageRowOk users s = true ∧
    r ∉ listListings u db ∧
    s ∉ listAiUsage u db ∧
    (r ∈ db.listings → r ∈ (deleteUser u db).listings) ∧
    (s ∈ db.ai_usage → s ∈ (deleteUser u db).ai_usage) := by
  refine ⟨?_, ?_, ?_, ?_, ?_, ?_⟩
  · simp [listingRowOk, hr]
  · simp [aiUsageRowOk, hs]
  · intro hmem
    have := List.mem_filter.mp hmem
    simp [hr] at this
  · intro hmem
    have := List.mem_filter.mp hmem
    simp [hs] at this
  · intro hmem
    exact List.mem_filter.mpr ⟨hmem, by simp [hr]⟩
  · intro hmem
    exact List.mem_filter.mpr ⟨hmem, by simp [hs]⟩

/-- Witness for claim C10: a concrete orphan listing and usage row (NULL
`user_id`) pass the foreign-key checks, are invisible to user `"u1"`'s
lists, and survive deleting `"u1"`. -/
theorem C10_null_user_id_rows_witness :
    c10Listing.user_id = none ∧
    c10Usage.user_id = none ∧
    (listingRowOk [] c10Listing = true ∧
      aiUsageRowOk [] c10Usage = true ∧
      c10Listing ∉ listListings "u1" c10Db ∧
      c10Usage ∉ listAiUsage "u1" c10Db ∧
      (c10Listing ∈ c10Db.listings →
        c10Listing ∈ (deleteUser "u1" c10Db).listings) ∧
      (c10Usage ∈ c10Db.ai_usage →
        c10Usage ∈ (deleteUser "u1" c10Db).ai_usage)) :=
  ⟨rfl, rfl,
    C10_null_user_id_rows [] "u1" c10Db c10Listing c10Usage rfl rfl⟩

/-- Claim C6: every RLS policy of the migration is `FOR ALL USING (true)`,
so the persistence layer enforces no access control: whoever issues a
request, every row of every table is visible and modifiable — in
particular a request on behalf of `u` reaches rows owned by any `v`
(shown for all pairs, hence for all distinct pairs), and the visible-row
set of each table does not depend on the issuer. -/
theorem C6_rls_no_access_control (u v : String) (db : Db) :
    (∀ r : UserRow, usersPolicy u r = true) ∧
    (∀ r : ListingRow, listingsPolicy u r = true) ∧
    (∀ r : AiUsageRow, aiUsagePolicy u r = true) ∧
    (∀ r : ListingRow, r.user_id = some v → rlsPermits listingsPolicy u r) ∧
    (∀ r : AiUsageRow, r.user_id = some v → rlsPermits aiUsagePolicy u r) ∧
    (∀ r : UserRow, r.id = v → rlsPermits usersPolicy u r) ∧
    rlsVisible usersPolicy u db.users = db.users ∧
    rlsVisible listingsPolicy u db.listings = db.listings ∧
    rlsVisible aiUsagePolicy u db.ai_usage = db.ai_usage ∧
    rlsVisible usersPolicy u db.users = rlsVisible usersPolicy v db.users ∧
    rlsVisible listingsPolicy u db.listings =
      rlsVisible listingsPolicy v db.listings ∧
    rlsVisible aiUsagePolicy u db.ai_usage =
      rlsVisible aiUsagePolicy v db.ai_usage := by
  unfold rlsVisible rlsPermits usersPolicy listingsPolicy aiUsagePolicy
  simp

/-- Witness for claim C6: user `"alice"` may modify the listing owned by
`"bob"`, and sees the whole `listings` table. -/
theorem C6_rls_no_access_control_witness :
    c6Listing.user_id = some "bob" ∧
    rlsPermits listingsPolicy "alice" c6Listing ∧
    rlsVisible listingsPolicy "alice" c10Db.listings = c10Db.listings :=
  ⟨rfl,
    (C6_rls_no_access_control "alice" "bob" c10Db).2.2.2.1 c6Listing rfl,
    (C6_rls_no_access_control "alice" "bob" c10Db).2.2.2.2.2.2.2.1⟩

/-- Claim C5: every listing produced by the generation workflow from a
non-empty image list and an optional message is stored with
`ai_generated = true`, `status = "draft"`, and non-empty title,
description, and category; in particular the title is present on the
stored row (the column is `NOT NULL`, so the row carries it as a plain
string).  Spec-modelled: the backend workflow and gateway are not in the
source tree; the gateway output contract (populated fields) is taken from
spec sections 4.2 and 8, the insert step from section 4.3 and the
`listings` schema. -/
theorem C5_generated_listing_fields (newId u provider : String)
    (images : List String) (message : Option String) (g : GatewayFields)
    (db : Db) (himg : images ≠ []) (hg : g.populated) :
    (insertGeneratedListing newId u images message provider g db).listings =
      db.listings ++ [generatedRow newId u images message provider g] ∧
    (generatedRow newId u images message provider g).ai_generated = true ∧
    (generatedRow newId u images message provider g).status = "draft" ∧
    (generatedRow newId u images message provider g).title ≠ "" ∧
    (generatedRow newId u images message provider g).description =
      some g.description ∧
    g.description ≠ "" ∧
    (generatedRow newId u images message provider g).category =
      some g.category ∧
    g.category ≠ "" := by
  obtain ⟨h1, h2, h3⟩ := hg
  exact ⟨rfl, rfl, rfl, h1, rfl, h2, rfl, h3⟩

/-- Witness for claim C5: generating from `["img1.jpg"]` and message
`"vintage leather jacket"` with the concrete gateway fields stores a
draft AI-generated listing with populated title/description/category. -/
theorem C5_generated_listing_fields_witness :
    (["img1.jpg"] : List String) ≠ [] ∧
    c5Fields.populated ∧
    ((insertGeneratedListing "L1" "u1" ["img1.jpg"]
          (some "vintage leather jacket") "openai" c5Fields c5Db).listings =
        c5Db.listings ++
          [generatedRow "L1" "u1" ["img1.jpg"]
            (some "vintage leather jacket") "openai" c5Fields] ∧
      (generatedRow "L1" "u1" ["img1.jpg"]
          (some "vintage leather jacket") "openai" c5Fields).ai_generated = true ∧
      (generatedRow "L1" "u1" ["img1.jpg"]
          (some "vintage leather jacket") "openai" c5Fields).status = "draft" ∧
      (generatedRow "L1" "u1" ["img1.jpg"]
          (some "vintage leather jacket") "openai" c5Fields).title ≠ "" ∧
      (generatedRow "L1" "u1" ["img1.jpg"]
          (some "vintage leather jacket") "openai" c5Fields).description =
        some c5Fields.description ∧
      c5Fields.description ≠ "" ∧
      (generatedRow "L1" "u1" ["img1.jpg"]
          (some "vintage leather jacket") "openai" c5Fields).category =
        some c5Fields.category ∧
      c5Fields.category ≠ "") :=
  ⟨by decide, by decide,
    C5_generated_listing_fields "L1" "u1" "openai" ["img1.jpg"]
      (some "vintage leather jacket") c5Fields c5Db (by decide) (by decide)⟩

/-- Claim C7: every call into the AI provider gateway, success or
failure, appends exactly one new `ai_usage` row for the calling user,
with token count and cost zero when validation fails before any network
call and when the provider does not report them.  Spec-modelled: the
gateway code is not in the source tree; the logging discipline is taken
from spec section 4.2 and the `ai_usage` schema. -/
theorem C7_usage_logged_once (newId u provider usedModel : String)
    (o : GatewayRequestOutcome) (db : Db) :
    (aiGatewayCall newId u provider usedModel o db).ai_usage =
      db.ai_usage ++ [usageRecordFor newId u provider usedModel o] ∧
    (usageRecordFor newId u provider usedModel o).user_id = some u ∧
    (∀ msg, o = .invalidRequest msg →
        (usageRecordFor newId u provider usedModel o).tokens_used = 0 ∧
        (usageRecordFor newId u provider usedModel o).cost = 0) ∧
    (∀ fields, o = .providerReply (.ok none none fields) →
        (usageRecordFor newId u provider usedModel o).tokens_used = 0 ∧
        (usageRecordFor newId u provider usedModel o).cost = 0) := by
  refine ⟨rfl, ?_, ?_, ?_⟩
  · cases o with
    | invalidRequest m => rfl
    | providerReply rep => cases rep <;> rfl
  · rintro msg rfl
    exact ⟨rfl, rfl⟩
  · rintro fields rfl
    exact ⟨rfl, rfl⟩

/-- Witness for claim C7: a request refused by validation before any
network call is logged once, with zero tokens and zero cost. -/
theorem C7_usage_logged_once_witness :
    (aiGatewayCall "A2" "u1" "openai" "gpt-4-vision"
        (.invalidRequest "No images provided") c5Db).ai_usage =
      c5Db.ai_usage ++
        [usageRecordFor "A2" "u1" "openai" "gpt-4-vision"
          (.invalidRequest "No images provided")] ∧
    (usageRecordFor "A2" "u1" "openai" "gpt-4-vision"
        (.invalidRequest "No images provided")).user_id = some "u1" ∧
    (usageRecordFor "A2" "u1" "openai" "gpt-4-vision"
        (.invalidRequest "No images provided")).tokens_used = 0 ∧
    (usageRecordFor "A2" "u1" "openai" "gpt-4-vision"
        (.invalidRequest "No images provided")).cost = 0 :=
  ⟨(C7_usage_logged_once "A2" "u1" "openai" "gpt-4-vision"
      (.invalidRequest "No images provided") c5Db).1,
    (C7_usage_logged_once "A2" "u1" "openai" "gpt-4-vision"
      (.invalidRequest "No images provided") c5Db).2.1,
    ((C7_usage_logged_once "A2" "u1" "openai" "gpt-4-vision"
      (.invalidRequest "No images provided") c5Db).2.2.1 "No images provided" rfl).1,
    ((C7_usage_logged_once "A2" "u1" "openai" "gpt-4-vision"
      (.invalidRequest "No images provided") c5Db).2.2.1 "No images provided" rfl).2⟩

end PictoPost
